import Mathlib

/-!
Verification model of the rss_to_wp entry-processing pipeline.

Shallow embedding of `src/rss_to_wp`: the feed filter (`feeds/filter.py`),
the deduplication store (`storage/dedupe.py`), the RSS image extractor
(`images/rss_extractor.py`), the rewriter response parsing
(`rewriter/openai_client.py`), the WordPress client duplicate guard
(`wordpress/client.py`), and the CLI orchestration loop (`cli.py`).

External library collaborators (feedparser, pendulum, hashlib, BeautifulSoup,
urllib.urljoin, the OpenAI SDK, requests, SQLite) are abstracted: timestamps
are already-parsed `Int` epoch values, hashing and URL joining are function
parameters, network responses are oracle inputs, and the SQLite table keyed by
a UNIQUE `entry_key` column is a list of records with replace-on-conflict
semantics.  Everything else is translated statement by statement from the
Python source.
-/

namespace RssToWp

/-- Python truthiness of an optional string field of a feedparser entry dict:
`"f" in entry and entry["f"]` — present and non-empty. -/
def pyTruthyStr : Option String → Bool
  | some s => !s.isEmpty
  | none => false

/-- Helper: does `n` occur as a contiguous sublist of the second argument? -/
def charsContain (n : List Char) : List Char → Bool
  | [] => n.isEmpty
  | c :: rest => n.isPrefixOf (c :: rest) || charsContain n rest

/-- Python substring containment `needle in hay` for strings. -/
def pyInStr (needle hay : String) : Bool :=
  charsContain needle.data hay.data

/-- `str.lower()`, character-wise. -/
def strLower (s : String) : String :=
  String.mk (s.data.map Char.toLower)

/-- `str.startswith(p)`. -/
def strStartsWith (s p : String) : Bool :=
  p.data.isPrefixOf s.data

/-- `str.endswith(p)`. -/
def strEndsWith (s p : String) : Bool :=
  p.data.reverse.isPrefixOf s.data.reverse

/-- `str.strip()`: drop leading and trailing whitespace. -/
def strStrip (s : String) : String :=
  String.mk (((s.data.dropWhile Char.isWhitespace).reverse.dropWhile
    Char.isWhitespace).reverse)

/-! ## DedupeStore (`storage/dedupe.py`)

The SQLite table `processed_entries` has a UNIQUE `entry_key` column; it is
modelled as a list of records in which `INSERT OR REPLACE` deletes any
conflicting row and appends the new one. -/

/-- One row of the `processed_entries` table. -/
structure DedupeRecord where
  entry_key : String
  feed_url : String
  entry_title : String
  entry_link : String
  wp_post_id : Option Nat
  wp_post_url : Option String
  processed_at : String
  deriving Repr, DecidableEq

/-- The `processed_entries` table contents. -/
abbrev DedupeStore := List DedupeRecord

/-- `DedupeStore.is_processed`: `SELECT 1 FROM processed_entries WHERE entry_key = ?`
and test whether a row came back. -/
def is_processed (store : DedupeStore) (entry_key : String) : Bool :=
  store.any (fun r => r.entry_key == entry_key)

/-- `DedupeStore.mark_processed`: `INSERT OR REPLACE INTO processed_entries ...`.
On the UNIQUE `entry_key` conflict the old row is removed and the new row
inserted; `processed_at` is the `datetime.utcnow().isoformat()` stamp, passed
in as a parameter. -/
def mark_processed (store : DedupeStore) (entry_key feed_url entry_title entry_link : String)
    (wp_post_id : Option Nat) (wp_post_url : Option String) (processed_at : String) :
    DedupeStore :=
  store.filter (fun r => !(r.entry_key == entry_key)) ++
    [{ entry_key := entry_key, feed_url := feed_url, entry_title := entry_title,
       entry_link := entry_link, wp_post_id := wp_post_id, wp_post_url := wp_post_url,
       processed_at := processed_at }]

/-! ## Run-level exit status (`cli.py`, `run`)

The feed loop accumulates `(processed, skipped, errors)` triples from
`process_feed`; a feed whose processing raised adds one error (`except` arm).
After the loop: `if total_errors > 0 and total_processed == 0 and
total_skipped == 0: raise typer.Exit(1)`. -/

/-- Accumulate run totals over per-feed outcomes: `some (p, s, e)` is a
`process_feed` return, `none` is a feed-level exception (adds one error). -/
def run_totals (results : List (Option (Nat × Nat × Nat))) : Nat × Nat × Nat :=
  results.foldl
    (fun acc r =>
      match r with
      | some (p, s, e) => (acc.1 + p, acc.2.1 + s, acc.2.2 + e)
      | none => (acc.1, acc.2.1, acc.2.2 + 1))
    (0, 0, 0)

/-- Exit code of `run` as decided after the feed loop (1 = failure exit). -/
def run_exit_code (results : List (Option (Nat × Nat × Nat))) : Nat :=
  let t := run_totals results
  if t.2.2 > 0 ∧ t.1 = 0 ∧ t.2.1 = 0 then 1 else 0

end RssToWp

namespace RssToWp

/-! ### Theorems: C5 and C8 -/

theorem countP_mark_processed (store : DedupeStore) (k f t l : String)
    (pid : Option Nat) (purl : Option String) (pat : String) :
    (mark_processed store k f t l pid purl pat).countP (fun r => r.entry_key == k) = 1 := by
  unfold mark_processed
  rw [List.countP_append]
  have h0 : (store.filter (fun r => !(r.entry_key == k))).countP
      (fun r => r.entry_key == k) = 0 := by
    rw [List.countP_eq_zero]
    intro r hr
    have := List.of_mem_filter hr
    simpa using this
  simp [h0, List.countP_cons]

/-- Claim C5: once `mark_processed(key, ...)` has been called against a store,
`is_processed(key)` on the resulting store returns true (the store is the
persistent table, so this holds in the same or a later process instance);
repeated `mark_processed` with the same key is an idempotent upsert that
leaves exactly one record for that key. -/
theorem mark_processed_spec (store : DedupeStore) (k f t l : String)
    (pid : Option Nat) (purl : Option String) (pat : String) :
    is_processed (mark_processed store k f t l pid purl pat) k = true ∧
    (mark_processed store k f t l pid purl pat).countP (fun r => r.entry_key == k) = 1 ∧
    mark_processed (mark_processed store k f t l pid purl pat) k f t l pid purl pat =
      mark_processed store k f t l pid purl pat := by
  refine ⟨?_, countP_mark_processed store k f t l pid purl pat, ?_⟩
  · unfold is_processed mark_processed
    simp
  · unfold mark_processed
    rw [List.filter_append]
    have h1 : (store.filter (fun r => !(r.entry_key == k))).filter
        (fun r => !(r.entry_key == k)) = store.filter (fun r => !(r.entry_key == k)) := by
      rw [List.filter_filter]
      apply List.filter_congr
      intro r _
      simp [Bool.and_self]
    rw [h1]
    simp

theorem run_totals_cons (r : Option (Nat × Nat × Nat)) (rs : List (Option (Nat × Nat × Nat))) :
    run_totals (r :: rs) =
      (match r with
       | some (p, s, e) =>
           ((run_totals rs).1 + p, (run_totals rs).2.1 + s, (run_totals rs).2.2 + e)
       | none => ((run_totals rs).1, (run_totals rs).2.1, (run_totals rs).2.2 + 1)) := by
  have key : ∀ (l : List (Option (Nat × Nat × Nat))) (a : Nat × Nat × Nat),
      l.foldl
        (fun acc r =>
          match r with
          | some (p, s, e) => (acc.1 + p, acc.2.1 + s, acc.2.2 + e)
          | none => (acc.1, acc.2.1, acc.2.2 + 1)) a =
      ((run_totals l).1 + a.1, (run_totals l).2.1 + a.2.1, (run_totals l).2.2 + a.2.2) := by
    intro l
    induction l with
    | nil => intro a; simp [run_totals]
    | cons x xs ih =>
        intro a
        match x with
        | some (p, s, e) =>
            simp only [run_totals, List.foldl_cons] at *
            rw [ih, ih ((0:Nat)+p, (0:Nat)+s, (0:Nat)+e)]
            simp
            omega
        | none =>
            simp only [run_totals, List.foldl_cons] at *
            rw [ih, ih ((0:Nat), (0:Nat), (0:Nat)+1)]
            simp
            omega
  match r with
  | some (p, s, e) =>
      simp only [run_totals, List.foldl_cons]
      rw [key rs ((0:Nat)+p, (0:Nat)+s, (0:Nat)+e)]
      simp only [run_totals]
      simp
  | none =>
      simp only [run_totals, List.foldl_cons]
      rw [key rs ((0:Nat), (0:Nat), (0:Nat)+1)]
      simp only [run_totals]
      simp

/-- Claim C8: the run exits with failure status iff the aggregate processed and
skipped counts are both zero and at least one error occurred; moreover any
single feed outcome with processed > 0 or skipped > 0 forces a successful
exit regardless of the error count. -/
theorem run_exit_code_spec (results : List (Option (Nat × Nat × Nat))) :
    (run_exit_code results = 1 ↔
      0 < (run_totals results).2.2 ∧ (run_totals results).1 = 0 ∧
        (run_totals results).2.1 = 0) ∧
    (∀ p s e, some (p, s, e) ∈ results → 0 < p + s → run_exit_code results = 0) := by
  constructor
  · unfold run_exit_code
    constructor
    · intro h
      by_contra hc
      simp only [if_neg] at h
      split at h
      · exact hc (by assumption)
      · exact absurd h (by decide)
    · intro h
      simp only [gt_iff_lt]
      rw [if_pos h]
  · intro p s e hmem hpos
    have grows : (run_totals results).1 + (run_totals results).2.1 ≥ p + s := by
      induction results with
      | nil => simp at hmem
      | cons x xs ih =>
          rw [run_totals_cons]
          rcases List.mem_cons.mp hmem with h | h
          · subst h
            match xs.foldl (fun acc r => match r with
              | some (p, s, e) => (acc.1 + p, acc.2.1 + s, acc.2.2 + e)
              | none => (acc.1, acc.2.1, acc.2.2 + 1)) ((0:Nat),(0:Nat),(0:Nat)) with
            | t => simp; omega
          · have := ih h
            match x with
            | some (q, u, v) => simp; omega
            | none => simpa using this
    unfold run_exit_code
    have : ¬(0 < (run_totals results).2.2 ∧ (run_totals results).1 = 0 ∧
        (run_totals results).2.1 = 0) := by
      rintro ⟨_, h1, h2⟩
      omega
    simp only [gt_iff_lt]
    rw [if_neg this]

end RssToWp

namespace RssToWp

/-! ## Feed entry model (`feedparser` entry dicts)

Entries are loosely-typed dicts from feedparser; fields referenced by the
pipeline are modelled as named optional fields.  `none` models an absent key;
`some ""` models a present-but-falsy value.  Date fields carry the instant the
external parse yields (`time.mktime` of a struct_time, or `pendulum.parse` of
a string) as an epoch second count; `none` also covers a present value whose
parse raises (the `try/except: continue` arms). -/

/-- One element of `entry["media_content"]` / `entry["media_thumbnail"]`
(`.get` with default `""` folds absence into the empty string). -/
structure MediaRef where
  url : String
  type : String
  medium : String
  deriving Repr, DecidableEq

/-- One element of `entry["enclosures"]`. -/
structure Enclosure where
  type : String
  href : String
  url : String
  deriving Repr, DecidableEq

/-- One element of `entry["links"]`; `href` keeps `.get("href")`'s None. -/
structure LinkRef where
  rel : String
  type : String
  href : Option String
  deriving Repr, DecidableEq

/-- A feedparser entry restricted to the fields the pipeline reads.
`content` is the list of `content[i]["value"]` strings. -/
structure Entry where
  id : Option String
  guid : Option String
  link : Option String
  title : Option String
  published_parsed : Option Int
  updated_parsed : Option Int
  created_parsed : Option Int
  published : Option Int
  updated : Option Int
  created : Option Int
  media_content : List MediaRef
  media_thumbnail : List MediaRef
  enclosures : List Enclosure
  links : List LinkRef
  content : List String
  summary : Option String
  description : Option String
  deriving Repr, DecidableEq

/-- An entry with every field absent/empty, for building concrete inputs. -/
def emptyEntry : Entry where
  id := none
  guid := none
  link := none
  title := none
  published_parsed := none
  updated_parsed := none
  created_parsed := none
  published := none
  updated := none
  created := none
  media_content := []
  media_thumbnail := []
  enclosures := []
  links := []
  content := []
  summary := none
  description := none

/-! ## Entry filtering (`feeds/filter.py`) -/

/-- `parse_entry_date`: try `published_parsed`, `updated_parsed`,
`created_parsed`, then the string fields `published`, `updated`, `created`,
first hit wins. -/
def parse_entry_date (e : Entry) : Option Int :=
  if e.published_parsed.isSome then e.published_parsed
  else if e.updated_parsed.isSome then e.updated_parsed
  else if e.created_parsed.isSome then e.created_parsed
  else if e.published.isSome then e.published
  else if e.updated.isSome then e.updated
  else e.created

/-- `is_within_window`: `entry_date >= pendulum.now(tz) - hours`.  Both sides
are instants, so the timezone parameter does not change the comparison; `now`
is the current instant in epoch seconds and the cutoff is `now - hours*3600`. -/
def is_within_window (entry_date : Int) (hours : Int) (now : Int) : Bool :=
  decide (now - hours * 3600 ≤ entry_date)

/-- The per-entry body of the `pick_entries` loop: parse the date (skip when
none), check the window (skip when outside), check `entry.get("link")`
truthiness (skip when falsy), and keep `(entry_date, entry)`. -/
def entry_survives (hours now : Int) (e : Entry) : Option (Int × Entry) :=
  match parse_entry_date e with
  | none => none
  | some d =>
    if !(is_within_window d hours now) then none
    else if !(pyTruthyStr e.link) then none
    else some (d, e)

/-- `pick_entries`: collect surviving `(date, entry)` pairs, stable-sort by
date descending (`valid_entries.sort(key=..., reverse=True)`), take the first
`max_count`, and drop the date component. -/
def pick_entries (entries : List Entry) (max_count : Nat) (hours_window now : Int) :
    List Entry :=
  let valid := entries.filterMap (entry_survives hours_window now)
  let sorted := List.insertionSort (fun a b : Int × Entry => b.1 ≤ a.1) valid
  (sorted.take max_count).map Prod.snd

/-- The resolvable date of an entry, defaulted (used only to state ordering). -/
def entryDateD (e : Entry) : Int :=
  (parse_entry_date e).getD 0

/-! ## Entry keys (`generate_entry_key`)

`hashlib.sha256(...).hexdigest()` and `datetime.isoformat` are external
collaborators, passed in as function parameters `sha256hex` and `iso`. -/

/-- `generate_entry_key`: `id:` / `guid:` / `link:` / `hash:` priority chain;
the hash form is the sha256 hexdigest of `title|date|feed_url` truncated to
32 characters. -/
def generate_entry_key (sha256hex : String → String) (iso : Int → String)
    (e : Entry) (feed_url : String) : String :=
  if pyTruthyStr e.id then "id:" ++ e.id.getD ""
  else if pyTruthyStr e.guid then "guid:" ++ e.guid.getD ""
  else if pyTruthyStr e.link then "link:" ++ e.link.getD ""
  else
    let title := e.title.getD ""
    let date_str := match parse_entry_date e with
      | some d => iso d
      | none => ""
    "hash:" ++ (sha256hex (title ++ "|" ++ date_str ++ "|" ++ feed_url)).take 32

/-- Which key-derivation strategy fires for an entry. -/
inductive KeyStrategy where
  | byId
  | byGuid
  | byLink
  | byHash
  deriving Repr, DecidableEq

/-- The strategy `generate_entry_key` selects, by its priority order. -/
def key_strategy (e : Entry) : KeyStrategy :=
  if pyTruthyStr e.id then .byId
  else if pyTruthyStr e.guid then .byGuid
  else if pyTruthyStr e.link then .byLink
  else .byHash

/-- The namespace tag each strategy stamps onto its keys. -/
def strategy_tag : KeyStrategy → String
  | .byId => "id:"
  | .byGuid => "guid:"
  | .byLink => "link:"
  | .byHash => "hash:"

/-- First character of each strategy tag (they are pairwise distinct). -/
def strategy_char : KeyStrategy → Char
  | .byId => 'i'
  | .byGuid => 'g'
  | .byLink => 'l'
  | .byHash => 'h'

end RssToWp

namespace RssToWp

/-! ### Theorems: C6 and C7 -/

instance instTotalDescFst : IsTotal (Int × Entry) (fun a b => b.1 ≤ a.1) :=
  ⟨fun a b => le_total b.1 a.1⟩

instance instTransDescFst : IsTrans (Int × Entry) (fun a b => b.1 ≤ a.1) :=
  ⟨fun _ _ _ h1 h2 => le_trans h2 h1⟩

theorem entry_survives_eq_some {hours now : Int} {a : Entry} {d : Int} {e : Entry}
    (h : entry_survives hours now a = some (d, e)) :
    a = e ∧ parse_entry_date e = some d ∧ is_within_window d hours now = true ∧
      pyTruthyStr e.link = true := by
  unfold entry_survives at h
  rcases hpd : parse_entry_date a with _ | d'
  · rw [hpd] at h; exact absurd h (by simp)
  · rw [hpd] at h
    by_cases hw : is_within_window d' hours now = true
    · by_cases hl : pyTruthyStr a.link = true
      · simp only [hw, hl, Bool.not_true, Bool.false_eq_true, if_false,
          Option.some.injEq, Prod.mk.injEq] at h
        obtain ⟨hd, ha⟩ := h
        subst hd; subst ha
        exact ⟨rfl, hpd, hw, hl⟩
      · simp [hw] at h
        exact absurd h.1 hl
    · simp at h
      exact absurd h.1 hw

theorem mem_pick_entries {entries : List Entry} {max_count : Nat} {hours now : Int}
    {e : Entry} (h : e ∈ pick_entries entries max_count hours now) :
    ∃ d, e ∈ entries ∧ parse_entry_date e = some d ∧
      is_within_window d hours now = true ∧ pyTruthyStr e.link = true := by
  unfold pick_entries at h
  obtain ⟨p, hp, hpe⟩ := List.mem_map.mp h
  have hsorted : p ∈ List.insertionSort (fun a b : Int × Entry => b.1 ≤ a.1)
      (entries.filterMap (entry_survives hours now)) :=
    (List.take_sublist _ _).mem hp
  have hvalid : p ∈ entries.filterMap (entry_survives hours now) :=
    (List.perm_insertionSort _ _).mem_iff.mp hsorted
  obtain ⟨a, ha, hsv⟩ := List.mem_filterMap.mp hvalid
  obtain ⟨d, e', hpde⟩ : ∃ d e', p = (d, e') := ⟨p.1, p.2, rfl⟩
  subst hpde
  simp only at hpe
  subst hpe
  obtain ⟨hae, hpd, hw, hl⟩ := entry_survives_eq_some hsv
  subst hae
  exact ⟨d, ha, hpd, hw, hl⟩

theorem mem_valid_date {hours now : Int} {entries : List Entry} {p : Int × Entry}
    (h : p ∈ entries.filterMap (entry_survives hours now)) :
    parse_entry_date p.2 = some p.1 := by
  obtain ⟨a, _, hsv⟩ := List.mem_filterMap.mp h
  obtain ⟨d, e', hpde⟩ : ∃ d e', p = (d, e') := ⟨p.1, p.2, rfl⟩
  subst hpde
  obtain ⟨hae, hpd, _, _⟩ := entry_survives_eq_some hsv
  exact hpd

/-- Claim C6: `pick_entries` excludes every entry with no resolvable date,
every entry whose resolvable date is outside the window, and every entry
without a usable link; the result has at most `max_count` elements, is
ordered by resolvable timestamp descending, and is exactly the surviving
entries sorted by timestamp descending truncated to `max_count`: it equals
the first `max_count` elements of a timestamp-descending permutation of all
surviving entries. -/
theorem pick_entries_spec (entries : List Entry) (max_count : Nat) (hours now : Int) :
    (∀ e, parse_entry_date e = none → e ∉ pick_entries entries max_count hours now) ∧
    (∀ e d, parse_entry_date e = some d → is_within_window d hours now = false →
      e ∉ pick_entries entries max_count hours now) ∧
    (∀ e, pyTruthyStr e.link = false → e ∉ pick_entries entries max_count hours now) ∧
    (pick_entries entries max_count hours now).length ≤ max_count ∧
    (pick_entries entries max_count hours now).Pairwise
      (fun a b => entryDateD b ≤ entryDateD a) ∧
    (∃ sortedAll : List Entry,
      sortedAll.Perm ((entries.filterMap (entry_survives hours now)).map Prod.snd) ∧
      sortedAll.Pairwise (fun a b => entryDateD b ≤ entryDateD a) ∧
      pick_entries entries max_count hours now = sortedAll.take max_count) := by
  refine ⟨?_, ?_, ?_, ?_, ?_, ?_⟩
  · intro e hnone hmem
    obtain ⟨d, _, hpd, _, _⟩ := mem_pick_entries hmem
    rw [hnone] at hpd
    exact absurd hpd (by simp)
  · intro e d hpd hout hmem
    obtain ⟨d', _, hpd', hw, _⟩ := mem_pick_entries hmem
    rw [hpd] at hpd'
    have : d = d' := by simpa using hpd'
    subst this
    rw [hout] at hw
    exact absurd hw (by simp)
  · intro e hnl hmem
    obtain ⟨_, _, _, _, hl⟩ := mem_pick_entries hmem
    rw [hnl] at hl
    exact absurd hl (by simp)
  · unfold pick_entries
    rw [List.length_map]
    exact List.length_take_le _ _
  · unfold pick_entries
    have hsorted : (List.insertionSort (fun a b : Int × Entry => b.1 ≤ a.1)
        (entries.filterMap (entry_survives hours now))).Pairwise
        (fun a b : Int × Entry => b.1 ≤ a.1) :=
      List.sorted_insertionSort _ _
    have htake := hsorted.sublist (List.take_sublist max_count _)
    rw [List.pairwise_map]
    refine htake.imp_of_mem ?_
    intro p q hp hq hle
    have hpv : p ∈ entries.filterMap (entry_survives hours now) :=
      (List.perm_insertionSort _ _).mem_iff.mp ((List.take_sublist _ _).mem hp)
    have hqv : q ∈ entries.filterMap (entry_survives hours now) :=
      (List.perm_insertionSort _ _).mem_iff.mp ((List.take_sublist _ _).mem hq)
    have hpd := mem_valid_date hpv
    have hqd := mem_valid_date hqv
    unfold entryDateD
    rw [hpd, hqd]
    simpa using hle
  · refine ⟨(List.insertionSort (fun a b : Int × Entry => b.1 ≤ a.1)
      (entries.filterMap (entry_survives hours now))).map Prod.snd, ?_, ?_, ?_⟩
    · exact (List.perm_insertionSort _ _).map Prod.snd
    · have hsorted : (List.insertionSort (fun a b : Int × Entry => b.1 ≤ a.1)
          (entries.filterMap (entry_survives hours now))).Pairwise
          (fun a b : Int × Entry => b.1 ≤ a.1) :=
        List.sorted_insertionSort _ _
      rw [List.pairwise_map]
      refine hsorted.imp_of_mem ?_
      intro p q hp hq hle
      have hpv : p ∈ entries.filterMap (entry_survives hours now) :=
        (List.perm_insertionSort _ _).mem_iff.mp hp
      have hqv : q ∈ entries.filterMap (entry_survives hours now) :=
        (List.perm_insertionSort _ _).mem_iff.mp hq
      have hpd := mem_valid_date hpv
      have hqd := mem_valid_date hqv
      unfold entryDateD
      rw [hpd, hqd]
      simpa using hle
    · simp only [pick_entries]
      rw [List.map_take]

/-- A surviving entry two hours old with window 48h, for concrete checks. -/
def entryRecent : Entry :=
  { emptyEntry with link := some "https://news.example/a", published_parsed := some 992800 }

/-- An entry 72 hours old, outside a 48h window anchored at `now = 1000000`. -/
def entryStale : Entry :=
  { emptyEntry with link := some "https://news.example/b", published_parsed := some 740800 }

theorem pick_entries_spec_witness :
    entryStale ∉ pick_entries [entryRecent, entryStale] 5 48 1000000 :=
  (pick_entries_spec [entryRecent, entryStale] 5 48 1000000).2.1 entryStale 740800
    rfl (by decide)

theorem generate_entry_key_eq (sha256hex : String → String) (iso : Int → String)
    (e : Entry) (feed_url : String) :
    generate_entry_key sha256hex iso e feed_url =
      match key_strategy e with
      | .byId => "id:" ++ e.id.getD ""
      | .byGuid => "guid:" ++ e.guid.getD ""
      | .byLink => "link:" ++ e.link.getD ""
      | .byHash => "hash:" ++ (sha256hex (e.title.getD "" ++ "|" ++
          (match parse_entry_date e with | some d => iso d | none => "") ++ "|" ++
          feed_url)).take 32 := by
  unfold generate_entry_key key_strategy
  by_cases h1 : pyTruthyStr e.id <;> by_cases h2 : pyTruthyStr e.guid <;>
    by_cases h3 : pyTruthyStr e.link <;> simp [h1, h2, h3]

theorem strategy_tag_head (st : KeyStrategy) (rest : String) :
    (strategy_tag st ++ rest).data.head? = some (strategy_char st) := by
  cases st <;> rfl

theorem strategy_char_injective (s1 s2 : KeyStrategy)
    (h : strategy_char s1 = strategy_char s2) : s1 = s2 := by
  cases s1 <;> cases s2 <;> simp_all [strategy_char]

/-- Claim C7: `generate_entry_key` always produces a key, chosen by the
id / guid / link / hash priority order, each form carrying its strategy tag;
keys produced under different strategies never collide.  (The function is a
pure function of the entry and feed url, so the same pair always yields the
same key.) -/
theorem generate_entry_key_spec (sha256hex : String → String) (iso : Int → String)
    (e : Entry) (feed_url : String) :
    (pyTruthyStr e.id = true →
      generate_entry_key sha256hex iso e feed_url = "id:" ++ e.id.getD "") ∧
    (pyTruthyStr e.id = false → pyTruthyStr e.guid = true →
      generate_entry_key sha256hex iso e feed_url = "guid:" ++ e.guid.getD "") ∧
    (pyTruthyStr e.id = false → pyTruthyStr e.guid = false → pyTruthyStr e.link = true →
      generate_entry_key sha256hex iso e feed_url = "link:" ++ e.link.getD "") ∧
    (pyTruthyStr e.id = false → pyTruthyStr e.guid = false → pyTruthyStr e.link = false →
      generate_entry_key sha256hex iso e feed_url = "hash:" ++
        (sha256hex (e.title.getD "" ++ "|" ++
          (match parse_entry_date e with | some d => iso d | none => "") ++ "|" ++
          feed_url)).take 32) ∧
    (∃ rest, generate_entry_key sha256hex iso e feed_url =
      strategy_tag (key_strategy e) ++ rest) ∧
    (∀ e2 feed_url2, key_strategy e ≠ key_strategy e2 →
      generate_entry_key sha256hex iso e feed_url ≠
        generate_entry_key sha256hex iso e2 feed_url2) := by
  have hshape : ∀ (e' : Entry) (f' : String), ∃ rest,
      generate_entry_key sha256hex iso e' f' = strategy_tag (key_strategy e') ++ rest := by
    intro e' f'
    rw [generate_entry_key_eq]
    cases key_strategy e' <;> exact ⟨_, rfl⟩
  refine ⟨?_, ?_, ?_, ?_, hshape e feed_url, ?_⟩
  · intro h1
    rw [generate_entry_key_eq]
    unfold key_strategy
    simp [h1]
  · intro h1 h2
    rw [generate_entry_key_eq]
    unfold key_strategy
    simp [h1, h2]
  · intro h1 h2 h3
    rw [generate_entry_key_eq]
    unfold key_strategy
    simp [h1, h2, h3]
  · intro h1 h2 h3
    rw [generate_entry_key_eq]
    unfold key_strategy
    simp [h1, h2, h3]
  · intro e2 feed_url2 hne heq
    obtain ⟨r1, hr1⟩ := hshape e feed_url
    obtain ⟨r2, hr2⟩ := hshape e2 feed_url2
    rw [hr1, hr2] at heq
    have hh := congrArg (fun s : String => s.data.head?) heq
    simp only [strategy_tag_head] at hh
    exact hne (strategy_char_injective _ _ (by simpa using hh))

/-- An entry with an id, for concrete key checks. -/
def entryWithId : Entry := { emptyEntry with id := some "tag-123" }

theorem generate_entry_key_spec_witness :
    generate_entry_key (fun s => s) (fun _ => "") entryWithId "https://feed.example/rss" =
      "id:tag-123" :=
  (generate_entry_key_spec (fun s => s) (fun _ => "") entryWithId
    "https://feed.example/rss").1 rfl

theorem run_exit_code_spec_witness : run_exit_code [some (1, 0, 3)] = 0 :=
  (run_exit_code_spec [some (1, 0, 3)]).2 1 0 3 (by simp) (by decide)

end RssToWp

namespace RssToWp

/-! ## Image extraction (`images/rss_extractor.py`)

`urllib.parse.urlparse` is modelled for the scheme/netloc/path fields the
code reads; `BeautifulSoup` HTML parsing is a function parameter `soupImgs`
yielding the `src` attributes of the document's `img` tags in order, and
`urllib.parse.urljoin` is a function parameter `urljoinF`. -/

/-- `IMAGE_EXTENSIONS` from `rss_extractor.py`. -/
def IMAGE_EXTENSIONS : List String :=
  [".jpg", ".jpeg", ".png", ".gif", ".webp", ".bmp"]

/-- `IMAGE_MIME_TYPES` from `rss_extractor.py`. -/
def IMAGE_MIME_TYPES : List String :=
  ["image/jpeg", "image/png", "image/gif", "image/webp", "image/bmp"]

/-- `known_image_hosts` from `is_valid_image_url`. -/
def known_image_hosts : List String :=
  ["pexels.com", "unsplash.com", "cloudinary.com", "imgix.net", "wp.com",
   "wordpress.com", "flickr.com", "staticflickr.com"]

/-- Valid RFC scheme: a letter followed by letters, digits, `+`, `-` or `.`. -/
def validScheme (cs : List Char) : Bool :=
  match cs with
  | [] => false
  | c :: rest => c.isAlpha && rest.all (fun x => x.isAlphanum || x == '+' || x == '-' || x == '.')

/-- Split a character list at its first colon, if any. -/
def splitOnColon : List Char → Option (List Char × List Char)
  | [] => none
  | c :: rest =>
    if c == ':' then some ([], rest)
    else (splitOnColon rest).map (fun p => (c :: p.1, p.2))

/-- `urllib.parse.urlparse` restricted to `(scheme, netloc, path)`: the scheme
is the lowercased text before the first colon when it is a valid scheme, the
netloc follows `//` up to `/`, `?` or `#`, and the path runs to `?` or `#`. -/
def urlparse (url : String) : String × String × String :=
  let sr : String × String :=
    match splitOnColon url.data with
    | some (before, after) =>
      if validScheme before then (strLower (String.mk before), String.mk after)
      else ("", url)
    | none => ("", url)
  if strStartsWith sr.2 "//" then
    let after := sr.2.data.drop 2
    let netloc := after.takeWhile (fun c => !(c == '/' || c == '?' || c == '#'))
    let rem := after.drop netloc.length
    let path := rem.takeWhile (fun c => !(c == '?' || c == '#'))
    (sr.1, String.mk netloc, String.mk path)
  else
    (sr.1, "", String.mk (sr.2.data.takeWhile (fun c => !(c == '?' || c == '#'))))

/-- `is_valid_image_url`: needs a scheme and netloc, then accepts an image
extension on the lowercased path, else a known image host substring of the
lowercased netloc. -/
def is_valid_image_url (url : String) : Bool :=
  if url.isEmpty then false
  else
    let parsed := urlparse url
    if parsed.1.isEmpty || parsed.2.1.isEmpty then false
    else if IMAGE_EXTENSIONS.any (fun ext => strEndsWith (strLower parsed.2.2) ext) then true
    else if known_image_hosts.any (fun host => pyInStr host (strLower parsed.2.1)) then true
    else false

/-- `skip_patterns` from `extract_first_image_from_html`. -/
def skip_patterns : List String :=
  ["pixel", "spacer", "blank", "1x1", "tracking", "beacon", "analytics",
   "gravatar", "avatar"]

/-- `any(pattern in src.lower() for pattern in skip_patterns)`. -/
def matches_skip_pattern (src : String) : Bool :=
  skip_patterns.any (fun p => pyInStr p (strLower src))

/-- `extract_first_image_from_html` over the parsed `img` src list: skip empty
srcs and srcs matching a skip pattern, rebase relative srcs against
`base_url`, and return the first that then looks like a valid image URL. -/
def extract_first_image_from_html (urljoinF : String → String → String)
    (imgs : List String) (base_url : String) : Option String :=
  match imgs with
  | [] => none
  | src :: rest =>
    if src.isEmpty then extract_first_image_from_html urljoinF rest base_url
    else if matches_skip_pattern src then extract_first_image_from_html urljoinF rest base_url
    else
      let resolved :=
        if !base_url.isEmpty && !(strStartsWith src "http://") && !(strStartsWith src "https://")
        then urljoinF base_url src else src
      if is_valid_image_url resolved then some resolved
      else extract_first_image_from_html urljoinF rest base_url

/-- Stage 1 of `find_rss_image`: the `media_content` loop. -/
def media_content_image : List MediaRef → Option String
  | [] => none
  | m :: rest =>
    if IMAGE_MIME_TYPES.contains m.type || m.medium == "image" then
      if is_valid_image_url m.url then some m.url else media_content_image rest
    else if is_valid_image_url m.url then some m.url
    else media_content_image rest

/-- Stage 2 of `find_rss_image`: the `media_thumbnail` loop. -/
def media_thumbnail_image : List MediaRef → Option String
  | [] => none
  | t :: rest => if is_valid_image_url t.url then some t.url else media_thumbnail_image rest

/-- Stage 3 of `find_rss_image`: the `enclosures` loop
(`url = enclosure.get("href","") or enclosure.get("url","")`). -/
def enclosure_image : List Enclosure → Option String
  | [] => none
  | enc :: rest =>
    let url := if !enc.href.isEmpty then enc.href else enc.url
    if IMAGE_MIME_TYPES.contains enc.type || is_valid_image_url url then
      if !url.isEmpty then some url else enclosure_image rest
    else enclosure_image rest

/-- Stage 4 of `find_rss_image`: the `links` loop (typed image links). -/
def links_image : List LinkRef → Option String
  | [] => none
  | l :: rest =>
    if IMAGE_MIME_TYPES.contains l.type then
      if !(l.href.getD "").isEmpty then some (l.href.getD "") else links_image rest
    else links_image rest

/-- Stage 5 source text: `content[0]["value"]`, else `summary` when the key
is present, else `description` when present, else empty. -/
def rss_html_content (e : Entry) : String :=
  match e.content with
  | v :: _ => v
  | [] =>
    match e.summary with
    | some s => s
    | none =>
      match e.description with
      | some d2 => d2
      | none => ""

/-- `find_rss_image`: the five-stage fallback, first hit wins. -/
def find_rss_image (urljoinF : String → String → String) (soupImgs : String → List String)
    (e : Entry) (base_url : String) : Option String :=
  match media_content_image e.media_content with
  | some u => some u
  | none =>
    match media_thumbnail_image e.media_thumbnail with
    | some u => some u
    | none =>
      match enclosure_image e.enclosures with
      | some u => some u
      | none =>
        match links_image e.links with
        | some u => some u
        | none =>
          let html := rss_html_content e
          if html.isEmpty then none
          else extract_first_image_from_html urljoinF (soupImgs html) base_url

end RssToWp

namespace RssToWp

/-! ### Theorems: C3 -/

/-- An entry whose only image reference is a structured `media_content` item
pointing at a tracking-pixel URL. -/
def entryTrackingPixel : Entry :=
  { emptyEntry with
    media_content := [{ url := "https://cdn.example.com/pixel.gif",
                        type := "image/gif", medium := "" }] }

/-- Claim C3 counterexample: the structured media-metadata path returns a URL
matching the `pixel` exclusion pattern — the skip patterns are only applied
on the HTML-content path, so the claim fails as stated for the
media/enclosure/link paths. -/
theorem find_rss_image_skip_counterexample :
    find_rss_image (fun _ src => src) (fun _ => []) entryTrackingPixel "" =
      some "https://cdn.example.com/pixel.gif" ∧
    matches_skip_pattern "https://cdn.example.com/pixel.gif" = true := by
  constructor
  · decide
  · decide

/-- Claim C3 (amended): only the HTML-content path excludes tracking and
placeholder URLs, and it checks the raw `img` src before relative-URL
resolution: whatever `extract_first_image_from_html` returns comes from an
img src that matched no exclusion pattern and passed URL validation. -/
theorem extract_first_image_no_skip (urljoinF : String → String → String)
    (imgs : List String) (base_url : String) (u : String)
    (h : extract_first_image_from_html urljoinF imgs base_url = some u) :
    ∃ src ∈ imgs, matches_skip_pattern src = false ∧
      u = (if !base_url.isEmpty && !(strStartsWith src "http://") &&
        !(strStartsWith src "https://") then urljoinF base_url src else src) ∧
      is_valid_image_url u = true := by
  induction imgs with
  | nil => simp [extract_first_image_from_html] at h
  | cons src rest ih =>
    unfold extract_first_image_from_html at h
    by_cases h1 : src.isEmpty
    · rw [if_pos h1] at h
      obtain ⟨s, hs, hrest⟩ := ih h
      exact ⟨s, List.mem_cons_of_mem _ hs, hrest⟩
    · rw [if_neg h1] at h
      by_cases h2 : matches_skip_pattern src
      · rw [if_pos h2] at h
        obtain ⟨s, hs, hrest⟩ := ih h
        exact ⟨s, List.mem_cons_of_mem _ hs, hrest⟩
      · rw [if_neg h2] at h
        by_cases h3 : is_valid_image_url
            (if !base_url.isEmpty && !(strStartsWith src "http://") &&
              !(strStartsWith src "https://") then urljoinF base_url src else src)
        · rw [if_pos h3] at h
          have hru := Option.some.inj h
          refine ⟨src, List.mem_cons_self _ _, by simpa using h2, hru.symm, ?_⟩
          rw [hru] at h3
          exact h3
        · rw [if_neg h3] at h
          obtain ⟨s, hs, hrest⟩ := ih h
          exact ⟨s, List.mem_cons_of_mem _ hs, hrest⟩

theorem extract_first_image_no_skip_witness :
    ∃ src ∈ ["https://cdn.example.com/pixel.gif", "https://cdn.example.com/photo.jpg"],
      matches_skip_pattern src = false ∧
      "https://cdn.example.com/photo.jpg" =
        (if !(("" : String)).isEmpty && !(strStartsWith src "http://") &&
          !(strStartsWith src "https://") then src else src) ∧
      is_valid_image_url "https://cdn.example.com/photo.jpg" = true :=
  extract_first_image_no_skip (fun _ s => s)
    ["https://cdn.example.com/pixel.gif", "https://cdn.example.com/photo.jpg"] ""
    "https://cdn.example.com/photo.jpg" (by decide)

end RssToWp

namespace RssToWp

/-! ## WordPress client (`wordpress/client.py`)

The REST target is an oracle: `search_results q` is the full ordered result
list the target would return for search query `q` (the request's
`per_page=5` truncates it to the first page), or a transport/server error;
`create_result` is the response to the post-creation POST.  The model tracks
which outbound calls are made. -/

/-- The fields of a created-post response the orchestrator reads
(`result.get("id")`, `result.get("link")`). -/
structure PostData where
  id : Option Nat
  link : Option String
  deriving Repr, DecidableEq

/-- Oracle for the WordPress REST target. -/
structure WpServer where
  search_results : String → Except Unit (List String)
  create_result : Except Unit PostData

/-- Outbound WordPress API calls, for stating frame conditions. -/
inductive WpCall where
  | searchPosts
  | createPost
  | uploadMedia
  | getOrCreateCategory
  | getOrCreateTags
  deriving Repr, DecidableEq

/-- `GET /posts?search=...&status=any&per_page=5`: the response is the first
`per_page` entries of the target's result list (rendered contents). -/
def wp_search_posts (srv : WpServer) (query : String) (per_page : Nat) :
    Except Unit (List String) :=
  match srv.search_results query with
  | .error e => .error e
  | .ok posts => .ok (posts.take per_page)

/-- `WordPressClient.check_duplicate_by_source_url`: false for an empty url
(without any request); search with `per_page=5`; true iff a returned post's
rendered content contains the exact url; false on any exception
("assume no duplicate on error"). -/
def check_duplicate_by_source_url (srv : WpServer) (source_url : String) : Bool :=
  if source_url.isEmpty then false
  else
    match wp_search_posts srv source_url 5 with
    | .error _ => false
    | .ok posts => posts.any (fun content => pyInStr source_url content)

/-- The source-attribution paragraph `create_post` appends when a source url
is present. -/
def post_content_with_source (content : String) (su : String) : String :=
  if !su.isEmpty then
    content ++ "\n\n<p><em>Source: <a href=\"" ++ su ++
      "\" target=\"_blank\" rel=\"noopener\">Original Article</a></em></p>"
  else content

/-- `WordPressClient.create_post`, control flow and calls: when
`source_url` is truthy and the duplicate guard trips, return `None` with no
creation call; otherwise POST the post and return the response (or `None` on
an HTTP/transport error).  The payload assembly (title, excerpt, taxonomy,
featured media, and `post_content_with_source`) does not influence the
result or the calls and is left out of this function. -/
def create_post (srv : WpServer) (source_url : Option String) :
    Option PostData × List WpCall :=
  let su := source_url.getD ""
  if !su.isEmpty && check_duplicate_by_source_url srv su then
    (none, [.searchPosts])
  else
    let calls := if !su.isEmpty then [WpCall.searchPosts, WpCall.createPost]
      else [WpCall.createPost]
    match srv.create_result with
    | .error _ => (none, calls)
    | .ok p => (some p, calls)

end RssToWp

namespace RssToWp

/-! ### Theorems: C4 and C10 -/

/-- A target that has a post containing the source url, but only at rank 6 of
the search results — beyond the `per_page=5` first page. -/
def dupServerRank6 : WpServer where
  search_results := fun _ =>
    .ok ["alpha", "bravo", "charlie", "delta", "echo",
         "body with https://src.example/article inside"]
  create_result := .ok { id := some 77, link := some "https://wp.example/?p=77" }

/-- Claim C4 counterexample: the target has a post whose body contains the
exact source url (at rank 6 of the search results), yet the guard misses it,
`create_post` performs the creation call and returns the created post rather
than null — the claim as stated fails. -/
theorem create_post_duplicate_counterexample :
    dupServerRank6.search_results "https://src.example/article" =
      Except.ok ["alpha", "bravo", "charlie", "delta", "echo",
        "body with https://src.example/article inside"] ∧
    pyInStr "https://src.example/article"
      "body with https://src.example/article inside" = true ∧
    check_duplicate_by_source_url dupServerRank6 "https://src.example/article" = false ∧
    create_post dupServerRank6 (some "https://src.example/article") =
      (some { id := some 77, link := some "https://wp.example/?p=77" },
        [WpCall.searchPosts, WpCall.createPost]) := by
  refine ⟨rfl, by decide, by decide, by decide⟩

/-- Claim C4 (amended): when the duplicate search succeeds and a post within
its first page of 5 results contains the exact source url, `publish`
returns null and performs no post-creation call. -/
theorem create_post_duplicate_guard (srv : WpServer) (su : String) (posts : List String)
    (hne : su.isEmpty = false)
    (hs : srv.search_results su = .ok posts)
    (hfound : (posts.take 5).any (fun c => pyInStr su c) = true) :
    create_post srv (some su) = (none, [WpCall.searchPosts]) ∧
    WpCall.createPost ∉ (create_post srv (some su)).2 := by
  have hdup : check_duplicate_by_source_url srv su = true := by
    unfold check_duplicate_by_source_url wp_search_posts
    rw [if_neg (by simp [hne]), hs]
    exact hfound
  have hcp : create_post srv (some su) = (none, [WpCall.searchPosts]) := by
    unfold create_post
    rw [if_pos (by simp [hne, hdup])]
  exact ⟨hcp, by rw [hcp]; decide⟩

/-- A target whose first search page already contains the duplicate post. -/
def dupServerRank1 : WpServer where
  search_results := fun _ => .ok ["body with https://src.example/article inside"]
  create_result := .ok { id := some 78, link := some "https://wp.example/?p=78" }

theorem create_post_duplicate_guard_witness :
    create_post dupServerRank1 (some "https://src.example/article") =
      (none, [WpCall.searchPosts]) ∧
    WpCall.createPost ∉
      (create_post dupServerRank1 (some "https://src.example/article")).2 :=
  create_post_duplicate_guard dupServerRank1 "https://src.example/article"
    ["body with https://src.example/article inside"] (by decide) rfl (by decide)

/-- Claim C10: the duplicate guard fails open — a transport/server error on
the search, or a duplicate post absent from the 5-result first page, makes
`check_duplicate_by_source_url` return false and creation proceed; an empty
source url returns false without any search request. -/
theorem check_duplicate_fails_open (srv : WpServer) (su : String) :
    (su.isEmpty = false → srv.search_results su = .error () →
      check_duplicate_by_source_url srv su = false ∧
      WpCall.createPost ∈ (create_post srv (some su)).2) ∧
    (∀ posts, su.isEmpty = false → srv.search_results su = .ok posts →
      (posts.take 5).all (fun c => !pyInStr su c) = true →
      check_duplicate_by_source_url srv su = false ∧
      WpCall.createPost ∈ (create_post srv (some su)).2) ∧
    (check_duplicate_by_source_url srv "" = false ∧
      WpCall.searchPosts ∉ (create_post srv (some "")).2) := by
  refine ⟨?_, ?_, ?_, ?_⟩
  · intro hne herr
    have hchk : check_duplicate_by_source_url srv su = false := by
      unfold check_duplicate_by_source_url wp_search_posts
      rw [if_neg (by simp [hne]), herr]
    refine ⟨hchk, ?_⟩
    unfold create_post
    rw [if_neg (by simp [hchk])]
    rcases srv.create_result with a | p <;> simp [hne]
  · intro posts hne hok hnone
    have hchk : check_duplicate_by_source_url srv su = false := by
      unfold check_duplicate_by_source_url wp_search_posts
      rw [if_neg (by simp [hne]), hok]
      rw [List.any_eq_false]
      intro c hc
      have := (List.all_eq_true.mp hnone) c hc
      simpa using this
    refine ⟨hchk, ?_⟩
    unfold create_post
    rw [if_neg (by simp [hchk])]
    rcases srv.create_result with a | p <;> simp [hne]
  · unfold check_duplicate_by_source_url
    rw [if_pos (by decide)]
  · have hchk0 : check_duplicate_by_source_url srv "" = false := rfl
    have hemp : ("" : String).isEmpty = true := rfl
    unfold create_post
    rcases srv.create_result with a | p <;> simp [hchk0, hemp]

theorem check_duplicate_fails_open_witness :
    check_duplicate_by_source_url dupServerRank6 "https://src.example/article" = false ∧
    WpCall.createPost ∈
      (create_post dupServerRank6 (some "https://src.example/article")).2 :=
  (check_duplicate_fails_open dupServerRank6 "https://src.example/article").2.1
    ["alpha", "bravo", "charlie", "delta", "echo",
     "body with https://src.example/article inside"]
    (by decide) rfl (by decide)

end RssToWp

namespace RssToWp

/-! ## Rewriter response parsing (`rewriter/openai_client.py`)

`json.loads` is external: a model response text is represented by what its
two parses yield.  `parsedFull` is the result of `json.loads` on the whole
response (`none` = `JSONDecodeError`); `parsedBrace` is the result of
`json.loads` on the first brace-delimited substring found by the
`_extract_fallback` regex (`none` = no match or a failed re-parse, both
swallowed by its bare `except`).  Python dict/string operations on the parsed
value are modelled with their exception behaviour. -/

/-- A parsed JSON value (a Python object produced by `json.loads`). -/
inductive Json where
  | null
  | bool (b : Bool)
  | num (n : Int)
  | str (s : String)
  | arr (xs : List Json)
  | obj (fields : List (String × Json))
  deriving Repr

/-- The Python exceptions the parsing code can raise past
`except json.JSONDecodeError`. -/
inductive PyEx where
  | keyError
  | typeError
  | attrError
  deriving Repr, DecidableEq

/-- Python `k in data`: key membership for dicts, element equality for lists
(a string equals only an equal string), substring test for strings;
`in` raises TypeError on other values. -/
def pyMem (k : String) : Json → Except PyEx Bool
  | .obj fields => .ok (fields.any (fun kv => kv.1 == k))
  | .arr xs => .ok (xs.any (fun x => match x with | .str s => s == k | _ => false))
  | .str s => .ok (pyInStr k s)
  | _ => .error .typeError

/-- Python `data[k]` with a string key: dict lookup (KeyError when absent);
TypeError on any other value. -/
def getItem (j : Json) (k : String) : Except PyEx Json :=
  match j with
  | .obj fields =>
    match fields.find? (fun kv => kv.1 == k) with
    | some kv => .ok kv.2
    | none => .error .keyError
  | _ => .error .typeError

/-- Python `data.get(k, default)`: dicts only, other values have no `.get`. -/
def pyGet (j : Json) (k : String) (default : Json) : Except PyEx Json :=
  match j with
  | .obj fields =>
    match fields.find? (fun kv => kv.1 == k) with
    | some kv => .ok kv.2
    | none => .ok default
  | _ => .error .attrError

/-- Python `value.strip()`: strings only (AttributeError otherwise). -/
def pyStrip : Json → Except PyEx Json
  | .str s => .ok (.str (strStrip s))
  | _ => .error .attrError

/-- Python `result[k] = v` on dicts: replace in place, else append. -/
def setItem (j : Json) (k : String) (v : Json) : Except PyEx Json :=
  match j with
  | .obj fields =>
    if fields.any (fun kv => kv.1 == k) then
      .ok (.obj (fields.map (fun kv => if kv.1 == k then (k, v) else kv)))
    else .ok (.obj (fields ++ [(k, v)]))
  | _ => .error .typeError

/-- Python truthiness of a parsed JSON value (`if result:`). -/
def pyTruthyJson : Json → Bool
  | .null => false
  | .bool b => b
  | .num n => !(n == 0)
  | .str s => !s.isEmpty
  | .arr xs => !xs.isEmpty
  | .obj fields => !fields.isEmpty

/-- Python `value[:50]`: strings and lists slice, TypeError otherwise. -/
def pySlice50 : Json → Except PyEx Json
  | .str s => .ok (.str (String.mk (s.data.take 50)))
  | .arr xs => .ok (.arr (xs.take 50))
  | _ => .error .typeError

/-- Python `len(value)`: strings, lists and dicts, TypeError otherwise. -/
def pyLen : Json → Except PyEx Nat
  | .str s => .ok s.data.length
  | .arr xs => .ok xs.length
  | .obj fields => .ok fields.length
  | _ => .error .typeError

/-- `OpenAIRewriter._parse_response`: on a successful full parse, require
`all(k in data for k in ["headline","body"])` (short-circuit, returning
`None` when absent), then build the normalized dict
`headline.strip / get("excerpt","").strip / body.strip`; on a
`JSONDecodeError`, `_extract_fallback` returns the brace re-parse raw,
without any field validation. -/
def parse_response (parsedFull parsedBrace : Option Json) : Except PyEx (Option Json) :=
  match parsedFull with
  | some data =>
    (match pyMem "headline" data with
    | .error e => .error e
    | .ok h =>
      if !h then .ok none
      else match pyMem "body" data with
      | .error e => .error e
      | .ok b =>
        if !b then .ok none
        else match getItem data "headline" with
        | .error e => .error e
        | .ok hv =>
          match pyStrip hv with
          | .error e => .error e
          | .ok hs =>
            match pyGet data "excerpt" (.str "") with
            | .error e => .error e
            | .ok ev =>
              match pyStrip ev with
              | .error e => .error e
              | .ok es =>
                match getItem data "body" with
                | .error e => .error e
                | .ok bv =>
                  match pyStrip bv with
                  | .error e => .error e
                  | .ok bs =>
                    .ok (some (.obj [("headline", hs), ("excerpt", es), ("body", bs)])))
  | none =>
    match parsedBrace with
    | some j => .ok (some j)
    | none => .ok none

/-- The tail of `OpenAIRewriter._call_openai` after the HTTP call: parse the
response; `if result:` (falsy results, including the empty dict, yield
`None`); when `use_original_title` is set overwrite the headline; then the
`rewrite_complete` log line evaluates `result["headline"][:50]` and
`len(result["body"])` before the value is returned.  An exception anywhere
escapes to `rewrite`'s model loop, which treats it — like a `None` return —
as a failure eligible for the next model in the chain. -/
def call_openai_accept (parsedFull parsedBrace : Option Json)
    (original_title : String) (use_original_title : Bool) : Except PyEx (Option Json) :=
  match parse_response parsedFull parsedBrace with
  | .error e => .error e
  | .ok none => .ok none
  | .ok (some result) =>
    if pyTruthyJson result then
      match (if use_original_title then setItem result "headline" (.str original_title)
        else .ok result) with
      | .error e => .error e
      | .ok result2 =>
        match getItem result2 "headline" with
        | .error e => .error e
        | .ok hv =>
          match pySlice50 hv with
          | .error e => .error e
          | .ok _ =>
            match getItem result2 "body" with
            | .error e => .error e
            | .ok bv =>
              match pyLen bv with
              | .error e => .error e
              | .ok _ => .ok (some result2)
    else .ok none

end RssToWp

namespace RssToWp

/-! ### Theorems: C9 -/

/-- Claim C9: every response the rewriter accepts — the full-parse path, which
validates the fields, and the brace-recovery path, whose missing fields make
the result-logging accesses raise before acceptance — is a parsed JSON value
containing at least the `headline` and `body` fields; anything else ends in
`None` or an exception, which the model chain treats as a failure eligible
for the next model. -/
theorem call_openai_accept_fields (parsedFull parsedBrace : Option Json)
    (original_title : String) (use_original_title : Bool) (r : Json)
    (h : call_openai_accept parsedFull parsedBrace original_title use_original_title =
      Except.ok (some r)) :
    (∃ hv, getItem r "headline" = Except.ok hv) ∧
    (∃ bv, getItem r "body" = Except.ok bv) := by
  unfold call_openai_accept at h
  repeat' split at h
  all_goals simp_all

theorem call_openai_accept_fields_witness :
    (∃ hv, getItem (Json.obj [("headline", Json.str "H"), ("excerpt", Json.str ""),
      ("body", Json.str "B")]) "headline" = Except.ok hv) ∧
    (∃ bv, getItem (Json.obj [("headline", Json.str "H"), ("excerpt", Json.str ""),
      ("body", Json.str "B")]) "body" = Except.ok bv) :=
  call_openai_accept_fields
    (some (Json.obj [("headline", Json.str "H"), ("body", Json.str "B")])) none
    "T" false
    (Json.obj [("headline", Json.str "H"), ("excerpt", Json.str ""),
      ("body", Json.str "B")]) rfl

end RssToWp

namespace RssToWp

/-! ## Orchestration (`cli.py`, `feeds/parser.py`)

`process_entry` / `process_feed` drive external collaborators (the rewriter,
image downloads, the stock-photo providers, the WordPress client).  Their
network outcomes are supplied per entry in an `EntryEnv` oracle; the
WordPress REST target is the `WpServer` oracle from the client model.  Email
notification plumbing (`published_articles`) and the sleep-based pacing are
outside the claims and the spec's core and are not modelled. -/

/-- `FeedConfig` (`config.py`). -/
structure FeedConfig where
  name : String
  url : String
  default_category : Option String
  default_tags : List String
  max_per_run : Nat
  use_original_title : Bool
  deriving Repr, DecidableEq

/-- `get_entry_title` (`feeds/parser.py`): `entry.get("title", "Untitled")`. -/
def get_entry_title (e : Entry) : String :=
  e.title.getD "Untitled"

/-- `get_entry_link` (`feeds/parser.py`): the truthy `entry["link"]`, else the
first `links` element with `rel == "alternate"` or `type == "text/html"`,
else the first `links` element's href, else None. -/
def get_entry_link (e : Entry) : Option String :=
  if pyTruthyStr e.link then e.link
  else
    match e.links with
    | [] => none
    | l :: rest =>
      match (l :: rest).find? (fun li => li.rel == "alternate" || li.type == "text/html") with
      | some li => li.href
      | none => l.href

/-- `get_entry_content` (`feeds/parser.py`): `content[0]["value"]`, else
`summary` when present, else `description`. -/
def get_entry_content (e : Entry) : String :=
  match e.content with
  | v :: _ => v
  | [] =>
    match e.summary with
    | some s => s
    | none => e.description.getD ""

/-- The rewritten-article dict returned by `OpenAIRewriter.rewrite`; the
accepted dict always carries `headline` and `body` (see the C9 theorem), and
`excerpt` is read with `.get("excerpt", "")`. -/
structure Rewritten where
  headline : String
  body : String
  excerpt : Option String
  deriving Repr, DecidableEq

/-- Python exceptions at entry granularity that the model tracks:
`image_result` referenced before assignment (`UnboundLocalError`, raised when
neither an RSS image nor a fallback image was found). -/
inductive EntryEx where
  | unboundLocal
  deriving Repr, DecidableEq

/-- Per-entry network oracle: the rewriter outcome, the success of the two
`download_image` calls, the stock-photo fallback outcome, the WordPress
media/taxonomy responses, and the WordPress target itself. -/
structure EntryEnv where
  rewritten : Option Rewritten
  download_rss : Bool
  fallback : Bool
  download_fallback : Bool
  upload_media_id : Option Nat
  category_id : Option Nat
  tag_ids : List Nat
  wp : WpServer

/-- The `image_result` local of `process_entry` after the two image stages:
`none` models the variable never being assigned (no RSS image and no
fallback), `some b` a bound download outcome. -/
def image_result_state (env : EntryEnv) (rss_image : Option String) : Option Bool :=
  let afterRss : Option String × Option Bool :=
    match rss_image with
    | some u => if env.download_rss then (some u, some true) else (none, some false)
    | none => (none, none)
  if afterRss.1.isNone then
    if env.fallback then
      if env.download_fallback then some true else some false
    else afterRss.2
  else afterRss.2

/-- `cli.process_entry`: rewrite (None → entry error), resolve an image
(RSS extractor then stock fallback), then — outside dry run with a client —
upload media, resolve taxonomy, and `create_post` with `source_url = link`;
in dry run, log the would-be post (which evaluates `image_result`) and
return the placeholder dict `id=0, link="dry-run://not-published"`.
Returns the outcome together with the WordPress calls made. -/
def process_entry (env : EntryEnv) (e : Entry) (cfg : FeedConfig)
    (dry_run : Bool) (wp_client : Bool)
    (urljoinF : String → String → String) (soupImgs : String → List String) :
    Except EntryEx (Option PostData) × List WpCall :=
  let link := get_entry_link e
  match env.rewritten with
  | none => (.ok none, [])
  | some _rw =>
    let image_url0 := find_rss_image urljoinF soupImgs e (link.getD "")
    let imgRes := image_result_state env image_url0
    if dry_run then
      match imgRes with
      | none => (.error .unboundLocal, [])
      | some _ => (.ok (some { id := some 0, link := some "dry-run://not-published" }), [])
    else
      if wp_client then
        match imgRes with
        | none => (.error .unboundLocal, [])
        | some dl =>
          let uploadCalls : List WpCall := if dl then [.uploadMedia] else []
          let catCalls : List WpCall :=
            if pyTruthyStr cfg.default_category then [.getOrCreateCategory] else []
          let tagCalls : List WpCall :=
            if !cfg.default_tags.isEmpty then [.getOrCreateTags] else []
          let created := create_post env.wp link
          (.ok created.1, uploadCalls ++ catCalls ++ tagCalls ++ created.2)
      else (.ok none, [])

/-- `cli.process_feed`: `(0,0,1)` when the feed failed to parse or came back
empty, `(0,0,0)` when filtering leaves nothing; otherwise the per-entry loop:
dedupe-skip via `is_processed`, a falsy `process_entry` result (None or an
exception) counts an error, and only a truthy result triggers
`mark_processed` and the processed count. -/
def process_feed (cfg : FeedConfig) (store : DedupeStore)
    (feed_entries : Option (List Entry)) (env : Entry → EntryEnv)
    (dry_run : Bool) (wp_client : Bool) (hours now : Int)
    (sha256hex : String → String) (iso : Int → String)
    (urljoinF : String → String → String) (soupImgs : String → List String)
    (stamp : Entry → String) :
    (Nat × Nat × Nat) × DedupeStore :=
  match feed_entries with
  | none => ((0, 0, 1), store)
  | some entries =>
    if entries.isEmpty then ((0, 0, 1), store)
    else
      let selected := pick_entries entries cfg.max_per_run hours now
      if selected.isEmpty then ((0, 0, 0), store)
      else
        selected.foldl
          (fun acc e =>
            let key := generate_entry_key sha256hex iso e cfg.url
            if is_processed acc.2 key then
              ((acc.1.1, acc.1.2.1 + 1, acc.1.2.2), acc.2)
            else
              match (process_entry (env e) e cfg dry_run wp_client urljoinF soupImgs).1 with
              | .error _ => ((acc.1.1, acc.1.2.1, acc.1.2.2 + 1), acc.2)
              | .ok none => ((acc.1.1, acc.1.2.1, acc.1.2.2 + 1), acc.2)
              | .ok (some result) =>
                ((acc.1.1 + 1, acc.1.2.1, acc.1.2.2),
                  mark_processed acc.2 key cfg.url (get_entry_title e)
                    ((get_entry_link e).getD "") result.id result.link (stamp e)))
          (((0 : Nat), (0 : Nat), (0 : Nat)), store)

end RssToWp

namespace RssToWp

/-- A feed configuration for concrete checks. -/
def cfgDemo : FeedConfig where
  name := "Demo"
  url := "https://feed.example/rss"
  default_category := none
  default_tags := []
  max_per_run := 5
  use_original_title := false

/-- A rewritten article for concrete checks. -/
def rwDemo : Rewritten where
  headline := "H"
  body := "B"
  excerpt := some "E"

/-- A WordPress target that always errors (never reached in dry run). -/
def dummyWp : WpServer where
  search_results := fun _ => .error ()
  create_result := .error ()

/-- Fresh in-window entry whose source url the target already carries. -/
def entryDupC1 : Entry :=
  { emptyEntry with
    id := some "k1", title := some "One",
    link := some "https://src.example/article",
    published_parsed := some 998000,
    media_content := [{ url := "https://cdn.example.com/photo.jpg",
                        type := "image/jpeg", medium := "" }] }

/-- Oracle for `entryDupC1`: rewrite succeeds, the RSS image downloads, and
the target is `dupServerRank1`, whose first search page contains the url. -/
def envDupC1 : EntryEnv where
  rewritten := some rwDemo
  download_rss := true
  fallback := false
  download_fallback := false
  upload_media_id := some 5
  category_id := none
  tag_ids := []
  wp := dupServerRank1

/-- Fresh in-window entry for the dry-run scenario. -/
def entryDryC2 : Entry :=
  { emptyEntry with
    id := some "k2", title := some "Two",
    link := some "https://src.example/two",
    published_parsed := some 998000,
    media_content := [{ url := "https://cdn.example.com/two.jpg",
                        type := "image/jpeg", medium := "" }] }

/-- Oracle for `entryDryC2`: rewrite succeeds and the RSS image downloads. -/
def envDryC2 : EntryEnv where
  rewritten := some rwDemo
  download_rss := true
  fallback := false
  download_fallback := false
  upload_media_id := none
  category_id := none
  tag_ids := []
  wp := dummyWp

end RssToWp

namespace RssToWp

/-! ### Theorems: C1 and C2 -/

theorem process_feed_single (cfg : FeedConfig) (store : DedupeStore) (e : Entry)
    (env : Entry → EntryEnv) (dry_run wp_client : Bool) (hours now : Int)
    (sha256hex : String → String) (iso : Int → String)
    (urljoinF : String → String → String) (soupImgs : String → List String)
    (stamp : Entry → String)
    (hsel : pick_entries [e] cfg.max_per_run hours now = [e])
    (hnew : is_processed store (generate_entry_key sha256hex iso e cfg.url) = false) :
    process_feed cfg store (some [e]) env dry_run wp_client hours now
        sha256hex iso urljoinF soupImgs stamp =
      (match (process_entry (env e) e cfg dry_run wp_client urljoinF soupImgs).1 with
       | .error _ => ((0, 0, 1), store)
       | .ok none => ((0, 0, 1), store)
       | .ok (some result) =>
         ((1, 0, 0),
           mark_processed store (generate_entry_key sha256hex iso e cfg.url) cfg.url
             (get_entry_title e) ((get_entry_link e).getD "") result.id result.link
             (stamp e))) := by
  unfold process_feed
  simp only [hsel, List.isEmpty_cons, Bool.false_eq_true, if_false,
    List.foldl_cons, List.foldl_nil, hnew]

theorem process_entry_publish_null (env : EntryEnv) (e : Entry) (cfg : FeedConfig)
    (urljoinF : String → String → String) (soupImgs : String → List String) (su : String)
    (hrw : env.rewritten.isSome)
    (hlink : get_entry_link e = some su)
    (himg : image_result_state env (find_rss_image urljoinF soupImgs e su) ≠ none)
    (hne : su.isEmpty = false)
    (hguard : check_duplicate_by_source_url env.wp su = true) :
    (process_entry env e cfg false true urljoinF soupImgs).1 = .ok none := by
  unfold process_entry
  obtain ⟨rw0, hrweq⟩ := Option.isSome_iff_exists.mp hrw
  rw [hrweq, hlink]
  simp only [Option.getD_some]
  rcases himgv : image_result_state env (find_rss_image urljoinF soupImgs e su) with _ | dl
  · exact absurd himgv himg
  · simp only [Bool.false_eq_true, if_false, if_true]
    have hcp : create_post env.wp (some su) = (none, [WpCall.searchPosts]) := by
      unfold create_post
      rw [if_pos (by simp [hne, hguard])]
    simp [hcp]

/-- Claim C1 counterexample: a single-entry feed whose publish is stopped by
the source-url duplicate guard ends with `(processed, skipped, errors) =
(0, 0, 1)` and an unchanged ledger — the duplicate-guard null is recorded as
an error, not as the skip the claim states. -/
theorem process_feed_duplicate_error_counterexample :
    check_duplicate_by_source_url dupServerRank1 "https://src.example/article" = true ∧
    process_feed cfgDemo [] (some [entryDupC1]) (fun _ => envDupC1) false true 48 1000000
      (fun s => s) (fun _ => "") (fun _ s => s) (fun _ => []) (fun _ => "t0") =
      ((0, 0, 1), []) := by
  exact ⟨by decide, by decide⟩

/-- Claim C1 (amended): when `Publisher.publish` returns null because the
source-url duplicate guard tripped, the orchestrator records the entry as an
error — not as processed and not as a skip — and does not call
`mark_processed` for it. -/
theorem process_feed_duplicate_guard_error (cfg : FeedConfig) (store : DedupeStore)
    (e : Entry) (env : Entry → EntryEnv) (hours now : Int)
    (sha256hex : String → String) (iso : Int → String)
    (urljoinF : String → String → String) (soupImgs : String → List String)
    (stamp : Entry → String) (su : String)
    (hsel : pick_entries [e] cfg.max_per_run hours now = [e])
    (hnew : is_processed store (generate_entry_key sha256hex iso e cfg.url) = false)
    (hrw : (env e).rewritten.isSome)
    (hlink : get_entry_link e = some su)
    (himg : image_result_state (env e) (find_rss_image urljoinF soupImgs e su) ≠ none)
    (hne : su.isEmpty = false)
    (hguard : check_duplicate_by_source_url (env e).wp su = true) :
    process_feed cfg store (some [e]) env false true hours now
      sha256hex iso urljoinF soupImgs stamp = ((0, 0, 1), store) := by
  rw [process_feed_single cfg store e env false true hours now sha256hex iso
    urljoinF soupImgs stamp hsel hnew]
  rw [process_entry_publish_null (env e) e cfg urljoinF soupImgs su hrw hlink himg
    hne hguard]

theorem process_feed_duplicate_guard_error_witness :
    process_feed cfgDemo [] (some [entryDupC1]) (fun _ => envDupC1) false true 48 1000000
      (fun s => s) (fun _ => "") (fun _ s => s) (fun _ => []) (fun _ => "t0") =
      ((0, 0, 1), []) :=
  process_feed_duplicate_guard_error cfgDemo [] entryDupC1 (fun _ => envDupC1) 48 1000000
    (fun s => s) (fun _ => "") (fun _ s => s) (fun _ => []) (fun _ => "t0")
    "https://src.example/article" (by decide) (by decide) (by decide) (by decide)
    (by decide) (by decide) (by decide)

theorem process_entry_dry_run_no_calls (env : EntryEnv) (e : Entry) (cfg : FeedConfig)
    (wp_client : Bool) (urljoinF : String → String → String)
    (soupImgs : String → List String) :
    (process_entry env e cfg true wp_client urljoinF soupImgs).2 = [] := by
  unfold process_entry
  rcases env.rewritten with _ | rw0
  · rfl
  · simp only [if_true]
    rcases image_result_state env
        (find_rss_image urljoinF soupImgs e ((get_entry_link e).getD "")) with _ | dl
    · rfl
    · rfl

theorem process_entry_dry_run_result (env : EntryEnv) (e : Entry) (cfg : FeedConfig)
    (wp_client : Bool) (urljoinF : String → String → String)
    (soupImgs : String → List String)
    (hrw : env.rewritten.isSome)
    (himg : image_result_state env
      (find_rss_image urljoinF soupImgs e ((get_entry_link e).getD "")) ≠ none) :
    (process_entry env e cfg true wp_client urljoinF soupImgs).1 =
      .ok (some { id := some 0, link := some "dry-run://not-published" }) := by
  unfold process_entry
  obtain ⟨rw0, hrweq⟩ := Option.isSome_iff_exists.mp hrw
  rw [hrweq]
  simp only [if_true]
  rcases himgv : image_result_state env
      (find_rss_image urljoinF soupImgs e ((get_entry_link e).getD "")) with _ | dl
  · exact absurd himgv himg
  · simp

/-- Claim C2 counterexample: a dry run over a single fresh entry ends with
processed = 1 and a ledger record written for the entry (placeholder post id
0 and url `dry-run://not-published`) — `mark_processed` IS called in dry-run
mode, contradicting the claim's "without writing any record to the dedupe
ledger". -/
theorem process_feed_dry_run_counterexample :
    process_feed cfgDemo [] (some [entryDryC2]) (fun _ => envDryC2) true false 48 1000000
      (fun s => s) (fun _ => "") (fun _ s => s) (fun _ => []) (fun _ => "t0") =
      ((1, 0, 0),
        [{ entry_key := "id:k2", feed_url := "https://feed.example/rss",
           entry_title := "Two", entry_link := "https://src.example/two",
           wp_post_id := some 0, wp_post_url := some "dry-run://not-published",
           processed_at := "t0" }]) ∧
    is_processed
      (process_feed cfgDemo [] (some [entryDryC2]) (fun _ => envDryC2) true false 48 1000000
        (fun s => s) (fun _ => "") (fun _ s => s) (fun _ => []) (fun _ => "t0")).2
      "id:k2" = true := by
  exact ⟨by decide, by decide⟩

/-- Claim C2 (amended): a dry-run entry stops before the publish step and
makes no call against the CMS target, but the ledger write is NOT skipped:
the orchestrator calls `mark_processed` for the entry, recording the
placeholder post id 0 and url `dry-run://not-published`. -/
theorem process_feed_dry_run_spec (cfg : FeedConfig) (store : DedupeStore)
    (e : Entry) (env : Entry → EntryEnv) (wp_client : Bool) (hours now : Int)
    (sha256hex : String → String) (iso : Int → String)
    (urljoinF : String → String → String) (soupImgs : String → List String)
    (stamp : Entry → String)
    (hsel : pick_entries [e] cfg.max_per_run hours now = [e])
    (hnew : is_processed store (generate_entry_key sha256hex iso e cfg.url) = false)
    (hrw : (env e).rewritten.isSome)
    (himg : image_result_state (env e)
      (find_rss_image urljoinF soupImgs e ((get_entry_link e).getD "")) ≠ none) :
    (process_entry (env e) e cfg true wp_client urljoinF soupImgs).2 = [] ∧
    process_feed cfg store (some [e]) env true wp_client hours now
        sha256hex iso urljoinF soupImgs stamp =
      ((1, 0, 0),
        mark_processed store (generate_entry_key sha256hex iso e cfg.url) cfg.url
          (get_entry_title e) ((get_entry_link e).getD "") (some 0)
          (some "dry-run://not-published") (stamp e)) := by
  refine ⟨process_entry_dry_run_no_calls (env e) e cfg wp_client urljoinF soupImgs, ?_⟩
  rw [process_feed_single cfg store e env true wp_client hours now sha256hex iso
    urljoinF soupImgs stamp hsel hnew]
  rw [process_entry_dry_run_result (env e) e cfg wp_client urljoinF soupImgs hrw himg]

theorem process_feed_dry_run_spec_witness :
    (process_entry envDryC2 entryDryC2 cfgDemo true false (fun _ s => s)
      (fun _ => [])).2 = [] ∧
    process_feed cfgDemo [] (some [entryDryC2]) (fun _ => envDryC2) true false 48 1000000
      (fun s => s) (fun _ => "") (fun _ s => s) (fun _ => []) (fun _ => "t0") =
      ((1, 0, 0),
        mark_processed [] (generate_entry_key (fun s => s) (fun _ => "") entryDryC2
          cfgDemo.url) cfgDemo.url (get_entry_title entryDryC2)
          ((get_entry_link entryDryC2).getD "") (some 0)
          (some "dry-run://not-published") "t0") :=
  process_feed_dry_run_spec cfgDemo [] entryDryC2 (fun _ => envDryC2) false 48 1000000
    (fun s => s) (fun _ => "") (fun _ s => s) (fun _ => []) (fun _ => "t0")
    (by decide) (by decide) (by decide) (by decide)

end RssToWp
